import Mathlib

/-!
Verification of the yana media pipeline (src-tauri/src/process.rs and
src-tauri/src/thumbnail.rs) against its natural-language specification.

The Rust code is shallowly embedded: pure helpers become Lean functions on
`Nat`/`List Nat`/`String`; calls into external crates (the `image` decoders
and encoders, `reqwest`, the filesystem) become explicit oracle parameters,
so that every control-flow decision made by the repository's own code is
modelled concretely.
-/

deriving instance DecidableEq for Except

namespace Yana

/- ---------------------------------------------------------------------
   Data model (process.rs)
--------------------------------------------------------------------- -/

/-- Image container formats recognised by `image::guess_format` that
process.rs dispatches on (`ImageFormat` in the source). -/
inductive ImgFormat where
  | png
  | jpeg
  | webp
  | gif
  | bmp
  | tiff
  | pnm
  | tga
  | ico
  deriving DecidableEq, Repr

/-- `DetectedKind` from process.rs: static or animated, tagged with format. -/
inductive DetectedKind where
  | Static (fmt : ImgFormat)
  | Animated (fmt : ImgFormat)
  deriving DecidableEq, Repr

/-- `Mode` from process.rs: output in the original format, or WebP. -/
inductive Mode where
  | original_format
  | webp
  deriving DecidableEq, Repr

/- ---------------------------------------------------------------------
   Format classifier: detect_format_and_kind (process.rs lines 130-159)

   `image::guess_format` and the GIF frame iterator live in the external
   `image` crate and are passed as oracles:
   - `guess bytes` is `image::guess_format(bytes)` (`none` = no known
     container signature);
   - `gifSecond bytes` models `GifDecoder::new` followed by
     `into_frames(); next(); next().is_some()`: `none` means the decoder
     construction failed, `some b` means a second frame is present iff `b`.
   The WebP ANIM-chunk scan is repository code and is embedded concretely.
--------------------------------------------------------------------- -/

/-- `bytes.windows(4).any(|w| w == b"ANIM")`: does the byte stream contain
a 4-byte window equal to the ANIM chunk marker (0x41 0x4E 0x49 0x4D)? -/
def hasAnimChunk : List Nat → Bool
  | a :: b :: c :: d :: rest =>
      (a == 65 && b == 78 && c == 73 && d == 77) || hasAnimChunk (b :: c :: d :: rest)
  | _ => false

/-- `detect_format_and_kind` from process.rs: classify a byte buffer as a
static or animated image, or fail when no container signature matches. -/
def detect_format_and_kind (guess : List Nat → Option ImgFormat)
    (gifSecond : List Nat → Option Bool) (bytes : List Nat) :
    Except String DetectedKind :=
  match guess bytes with
  | none => .error "guess format"
  | some .gif =>
      match gifSecond bytes with
      | none => .error "gif decode"
      | some true => .ok (.Animated .gif)
      | some false => .ok (.Static .gif)
  | some .webp =>
      if hasAnimChunk bytes then .ok (.Animated .webp) else .ok (.Static .webp)
  | some other => .ok (.Static other)

/- ---------------------------------------------------------------------
   Animated transcoder dispatch: process_one (process.rs lines 361-411)

   The decoders/encoders of the `image`/`webp` crates are oracle
   parameters over an abstract image type `Img`; the repository's own
   dispatch over (DetectedKind, Mode, force_animated_webp) is concrete.
--------------------------------------------------------------------- -/

/-- `animated_to_webp` from process.rs: decode the first frame
(`image::load_from_memory`) and encode it as a static WebP. -/
def animated_to_webp {Img : Type} (loadFirstFrame : List Nat → Except String Img)
    (encWebp : Img → Nat → List Nat) (bytes : List Nat) (quality : Nat) :
    Except String (List Nat) :=
  match loadFirstFrame bytes with
  | .error e => .error e
  | .ok img => .ok (encWebp img quality)

/-- The bytes written by `process_one` for a given detected kind, given
oracles for the external decode/encode steps: `decode` is the
`ImageReader ... decode()` path, `encToFmt` is `encode_to_format`,
`encWebp` is `encode_webp_static`, `reencGif` is `reencode_gif_frames`,
`loadFirstFrame` feeds `animated_to_webp`. Mirrors the
`match (kind, mode)` in process.rs lines 361-411. -/
def process_one_output {Img : Type} (decode : List Nat → Except String Img)
    (encToFmt : Img → ImgFormat → Nat → List Nat)
    (encWebp : Img → Nat → List Nat)
    (reencGif : List Nat → Except String (List Nat))
    (loadFirstFrame : List Nat → Except String Img)
    (kind : DetectedKind) (mode : Mode) (force_animated_webp : Bool)
    (quality : Nat) (bytes : List Nat) : Except String (List Nat) :=
  match kind, mode with
  | .Static fmt, .original_format =>
      match decode bytes with
      | .error e => .error e
      | .ok img => .ok (encToFmt img fmt quality)
  | .Static _, .webp =>
      match decode bytes with
      | .error e => .error e
      | .ok img => .ok (encWebp img quality)
  | .Animated fmt, _ =>
      if force_animated_webp then
        match fmt with
        | .webp => .ok bytes
        | _ => animated_to_webp loadFirstFrame encWebp bytes quality
      else
        match fmt with
        | .gif => reencGif bytes
        | _ => .ok bytes

/- ---------------------------------------------------------------------
   Batch orchestrator: compress_images (process.rs lines 426-465)

   `process_one` is abstracted as an oracle `proc q i p` (`none` models a
   per-item failure, `some out` the freshly produced artifact path; the
   index argument resolves the nondeterminism of fresh temp-file names).
   The rayon `collect` may deliver worker results in any completion
   order, modelled by quantifying over an arbitrary permutation of the
   collected `(index, output)` pairs before the `sort_by_key` step.
--------------------------------------------------------------------- -/

/-- The quality clamp `quality.min(100)` applied by `compress_images` and
`compress_image_data` before any encoder is reached. -/
def clamp_quality (quality : Nat) : Nat := min quality 100

/-- Per-item outcome of the parallel map body in `compress_images`: the
artifact path on success, the original input path on failure. -/
def item_output (proc : Nat → Nat → String → Option String)
    (q : Nat) (i : Nat) (p : String) : String :=
  match proc q i p with
  | some out => out
  | none => p

/-- The `(index, output)` pairs produced by the parallel map in
`compress_images` (before the rayon collect delivers them). -/
def compress_collect (proc : Nat → Nat → String → Option String)
    (q : Nat) (paths : List String) : List (Nat × String) :=
  paths.enum.map (fun ip => (ip.1, item_output proc q ip.1 ip.2))

/-- Comparison used by `v.sort_by_key(|(i, _)| *i)`. -/
def keyLe (a b : Nat × String) : Prop := a.1 ≤ b.1

instance : DecidableRel keyLe := fun a b => Nat.decLe a.1 b.1

instance : IsTotal (Nat × String) keyLe := ⟨fun a b => Nat.le_total a.1 b.1⟩

instance : IsTrans (Nat × String) keyLe := ⟨fun _ _ _ h1 h2 => Nat.le_trans h1 h2⟩

/-- Strict version of `keyLe`; antisymmetric because two distinct pairs
cannot have strictly smaller keys in both directions. -/
def keyLt (a b : Nat × String) : Prop := a.1 < b.1

instance : IsAntisymm (Nat × String) keyLt :=
  ⟨fun _ _ h1 h2 => absurd (Nat.lt_trans h1 h2) (Nat.lt_irrefl _)⟩

/-- The tail of `compress_images`: sort the collected pairs by original
index and drop the indices. -/
def compress_finish (v : List (Nat × String)) : List String :=
  (v.insertionSort keyLe).map Prod.snd

/-- `compress_images` from process.rs: clamp quality, process every path
in parallel with per-item fallback, sort by index, return the outputs. -/
def compress_images (proc : Nat → Nat → String → Option String)
    (quality : Nat) (paths : List String) : List String :=
  compress_finish (compress_collect proc (clamp_quality quality) paths)

/-- `compress_image_data` from process.rs: clamp quality, then run
`process_data` (abstracted as `procD`) on the byte buffer, propagating
its error. -/
def compress_image_data (procD : Nat → List Nat → Except String String)
    (quality : Nat) (data : List Nat) : Except String String :=
  procD (clamp_quality quality) data

/- ---------------------------------------------------------------------
   Supporting lemmas for the orchestrator ordering argument
--------------------------------------------------------------------- -/

theorem compress_collect_map_fst (proc : Nat → Nat → String → Option String)
    (q : Nat) (paths : List String) :
    (compress_collect proc q paths).map Prod.fst = List.range paths.length := by
  rw [compress_collect, List.map_map]
  exact List.enum_map_fst paths

theorem compress_collect_sorted (proc : Nat → Nat → String → Option String)
    (q : Nat) (paths : List String) :
    List.Sorted keyLt (compress_collect proc q paths) := by
  have h : List.Pairwise (· < ·) ((compress_collect proc q paths).map Prod.fst) := by
    rw [compress_collect_map_fst]
    exact List.pairwise_lt_range _
  have h2 : List.Pairwise (fun a b : Nat × String => a.1 < b.1)
      (compress_collect proc q paths) := (@List.pairwise_map _ _ Prod.fst _ _).mp h
  exact h2

theorem enum_getElem? {α : Type} (l : List α) (i : Nat) :
    l.enum[i]? = l[i]?.map (fun a => (i, a)) := by
  by_cases h : i < l.length
  · rw [List.getElem?_eq_getElem (by simpa using h), List.getElem?_eq_getElem h,
      List.getElem_enum]
    rfl
  · rw [List.getElem?_eq_none (by simpa using Nat.le_of_not_lt h),
      List.getElem?_eq_none (Nat.le_of_not_lt h)]
    rfl

theorem compress_finish_eq (proc : Nat → Nat → String → Option String)
    (q : Nat) (paths : List String) (v : List (Nat × String))
    (hv : v.Perm (compress_collect proc q paths)) :
    compress_finish v = (compress_collect proc q paths).map Prod.snd := by
  rw [compress_finish]
  congr 1
  have hperm : (v.insertionSort keyLe).Perm (compress_collect proc q paths) :=
    (List.perm_insertionSort keyLe v).trans hv
  refine @List.eq_of_perm_of_sorted _ keyLt _ _ _ hperm ?_ (compress_collect_sorted proc q paths)
  have hle : List.Sorted keyLe (v.insertionSort keyLe) := List.sorted_insertionSort keyLe v
  have hnodup : ((v.insertionSort keyLe).map Prod.fst).Nodup := by
    have h1 : ((compress_collect proc q paths).map Prod.fst).Nodup := by
      rw [compress_collect_map_fst]
      exact List.nodup_range _
    exact (hperm.map Prod.fst).symm.nodup h1
  have hne : List.Pairwise (fun a b : Nat × String => a.1 ≠ b.1) (v.insertionSort keyLe) :=
    List.pairwise_map.mp hnodup
  exact (hle.and hne).imp fun hab => Nat.lt_of_le_of_ne hab.1 hab.2

/- ---------------------------------------------------------------------
   C1, C8 theorems
--------------------------------------------------------------------- -/

/-- C1: for every input list of paths and every completion order `v` of
the parallel workers (any permutation of the collected `(index, output)`
pairs), `compress_images` returns a list of the same length whose `i`-th
entry is the artifact path when item `i` succeeded and the original
`i`-th input path when it failed; the `sort_by_key` step makes the
result independent of completion order (it always equals the function
`compress_images` itself). -/
theorem compress_images_order_preserving
    (proc : Nat → Nat → String → Option String) (quality : Nat)
    (paths : List String) (v : List (Nat × String))
    (hv : v.Perm (compress_collect proc (clamp_quality quality) paths)) :
    (compress_finish v).length = paths.length ∧
    (∀ i : Nat, (compress_finish v)[i]? =
      (paths[i]?).map (item_output proc (clamp_quality quality) i)) ∧
    compress_finish v = compress_images proc quality paths := by
  have heq := compress_finish_eq proc (clamp_quality quality) paths v hv
  refine ⟨?_, ?_, ?_⟩
  · rw [heq]
    simp [compress_collect]
  · intro i
    rw [heq, compress_collect, List.map_map, List.getElem?_map, enum_getElem?]
    cases paths[i]? <;> rfl
  · rw [heq, compress_images]
    exact (compress_finish_eq proc (clamp_quality quality) paths _ (List.Perm.refl _)).symm

/-- Closed instance of `compress_images_order_preserving`: two items, the
first succeeding and the second failing, delivered by the workers in
reversed completion order. -/
theorem compress_images_order_preserving_witness :
    (compress_finish [(1, "b"), (0, "A")]).length = (["a", "b"] : List String).length :=
  (compress_images_order_preserving
    (fun _ i _ => if i == 0 then some "A" else none) 80 ["a", "b"]
    [(1, "b"), (0, "A")] (by decide)).1

/-- C8: the orchestrator clamps quality to at most 100 before any encoder
sees it, and both `compress_images` and `compress_image_data` behave
identically at quality 255 and quality 100. -/
theorem quality_clamp_behavior :
    (∀ q : Nat, clamp_quality q ≤ 100) ∧
    (∀ (proc : Nat → Nat → String → Option String) (paths : List String),
      compress_images proc 255 paths = compress_images proc 100 paths) ∧
    (∀ (procD : Nat → List Nat → Except String String) (data : List Nat),
      compress_image_data procD 255 data = compress_image_data procD 100 data) :=
  ⟨fun q => Nat.min_le_right q 100, fun _ _ => rfl, fun _ _ => rfl⟩

/- ---------------------------------------------------------------------
   C2 theorems
--------------------------------------------------------------------- -/

/-- C2 fails as stated: an input classified as an animated GIF processed
with target mode WebP but `force_animated_webp = false` is re-encoded as
a GIF (`reencode_gif_frames`), not first-frame-encoded as a static WebP
(`animated_to_webp`); here the two give distinct outputs. -/
theorem animated_gif_webp_mode_counterexample :
    @process_one_output Unit (fun _ => .ok ()) (fun _ _ _ => [0])
        (fun _ _ => [1]) (fun _ => .ok [2]) (fun _ => .ok ())
        (.Animated .gif) .webp false 80 [9] = .ok [2] ∧
    @animated_to_webp Unit (fun _ => .ok ()) (fun _ _ => [1]) [9] 80 = .ok [1] ∧
    (Except.ok [2] : Except String (List Nat)) ≠ .ok [1] :=
  ⟨rfl, rfl, by simp⟩

/-- C2 amended: the animated transcoder dispatches on
`(detected_format, force_animated_webp)`, not on the target mode. An
animated GIF is first-frame-encoded as static WebP exactly when
`force_animated_webp` is true (in every mode); with the flag false it is
re-encoded as GIF even in WebP mode; an animated WebP is byte-for-byte
passthrough in every mode and for either flag value (covering the
claim's `(AnimatedWebP, OriginalFormat)` passthrough case). -/
theorem animated_dispatch_amended {Img : Type}
    (decode : List Nat → Except String Img)
    (encToFmt : Img → ImgFormat → Nat → List Nat)
    (encWebp : Img → Nat → List Nat)
    (reencGif : List Nat → Except String (List Nat))
    (loadFirstFrame : List Nat → Except String Img)
    (mode : Mode) (force : Bool) (quality : Nat) (bytes : List Nat) :
    process_one_output decode encToFmt encWebp reencGif loadFirstFrame
        (.Animated .gif) mode true quality bytes
      = animated_to_webp loadFirstFrame encWebp bytes quality ∧
    process_one_output decode encToFmt encWebp reencGif loadFirstFrame
        (.Animated .webp) mode force quality bytes = .ok bytes ∧
    process_one_output decode encToFmt encWebp reencGif loadFirstFrame
        (.Animated .gif) mode false quality bytes = reencGif bytes := by
  refine ⟨?_, ?_, ?_⟩ <;> cases mode <;> first
    | rfl
    | (cases force <;> rfl)

/- ---------------------------------------------------------------------
   C7 theorem
--------------------------------------------------------------------- -/

/-- C7: classification behavior of `detect_format_and_kind`. A GIF is
Animated exactly when the frame iterator yields a second frame, a WebP
is Animated exactly when the byte stream contains a four-byte ANIM
window, every other recognised container is Static, and an unrecognised
signature is an error. -/
theorem detect_format_classification (guess : List Nat → Option ImgFormat)
    (gifSecond : List Nat → Option Bool) (bytes : List Nat) :
    (guess bytes = none →
      detect_format_and_kind guess gifSecond bytes = .error "guess format") ∧
    (guess bytes = some .gif →
      (detect_format_and_kind guess gifSecond bytes = .ok (.Animated .gif) ↔
        gifSecond bytes = some true) ∧
      (detect_format_and_kind guess gifSecond bytes = .ok (.Static .gif) ↔
        gifSecond bytes = some false)) ∧
    (guess bytes = some .webp →
      (detect_format_and_kind guess gifSecond bytes = .ok (.Animated .webp) ↔
        hasAnimChunk bytes = true) ∧
      (detect_format_and_kind guess gifSecond bytes = .ok (.Static .webp) ↔
        hasAnimChunk bytes = false)) ∧
    (∀ fmt : ImgFormat, guess bytes = some fmt → fmt ≠ .gif → fmt ≠ .webp →
      detect_format_and_kind guess gifSecond bytes = .ok (.Static fmt)) := by
  refine ⟨?_, ?_, ?_, ?_⟩
  · intro h
    rw [detect_format_and_kind, h]
  · intro h
    rw [detect_format_and_kind, h]
    rcases hg : gifSecond bytes with _ | b
    · simp
    · cases b <;> simp
  · intro h
    rw [detect_format_and_kind, h]
    rcases ha : hasAnimChunk bytes with _ | _ <;> simp
  · intro fmt h hgif hwebp
    rw [detect_format_and_kind, h]
    cases fmt <;> simp_all

/-- Closed instance of `detect_format_classification`: a buffer whose
container is recognised as WebP and which contains the ANIM marker is
classified as animated WebP. -/
theorem detect_format_classification_witness :
    detect_format_and_kind (fun _ => some .webp) (fun _ => none) [65, 78, 73, 77]
      = .ok (.Animated .webp) :=
  ((detect_format_classification (fun _ => some .webp) (fun _ => none)
    [65, 78, 73, 77]).2.2.1 rfl).1.mpr (by decide)

/- ---------------------------------------------------------------------
   SHA-256 (the `sha2` crate as used by thumbnail.rs `compute_url_hash`)

   thumbnail.rs hashes the URL's UTF-8 bytes with SHA-256 and takes the
   first 16 lowercase-hex characters. The hash itself is embedded
   concretely (FIPS 180-4) so that the cache key really is a pure
   function of the URL string.
--------------------------------------------------------------------- -/

/-- Truncation to a 32-bit word. -/
def w32 (n : Nat) : Nat := n % 4294967296

/-- Right rotation of a 32-bit word by `k`. -/
def rotr (k x : Nat) : Nat := w32 ((x >>> k) ||| (x <<< (32 - k)))

def bsig0 (x : Nat) : Nat := rotr 2 x ^^^ rotr 13 x ^^^ rotr 22 x

def bsig1 (x : Nat) : Nat := rotr 6 x ^^^ rotr 11 x ^^^ rotr 25 x

def ssig0 (x : Nat) : Nat := rotr 7 x ^^^ rotr 18 x ^^^ (x >>> 3)

def ssig1 (x : Nat) : Nat := rotr 17 x ^^^ rotr 19 x ^^^ (x >>> 10)

/-- SHA-256 message padding: append 0x80, zeros, and the 64-bit
big-endian bit length, reaching a multiple of 64 bytes. -/
def sha256Pad (msg : List Nat) : List Nat :=
  let len := msg.length
  let zeros := (64 + 56 - (len + 1) % 64) % 64
  msg ++ [128] ++ List.replicate zeros 0 ++
    (List.range 8).map (fun i => (len * 8) >>> ((7 - i) * 8) &&& 255)

/-- Big-endian 32-bit word from four bytes. -/
def beWord (b0 b1 b2 b3 : Nat) : Nat :=
  ((b0 <<< 8 ||| b1) <<< 8 ||| b2) <<< 8 ||| b3

/-- The sixteen 32-bit words of one 64-byte chunk. -/
def chunkWords (chunk : List Nat) : Array Nat :=
  (List.range 16).foldl (fun a i =>
    a.push (beWord (chunk.getD (4 * i) 0) (chunk.getD (4 * i + 1) 0)
      (chunk.getD (4 * i + 2) 0) (chunk.getD (4 * i + 3) 0))) #[]

/-- Extend sixteen words to the 64-entry message schedule. -/
def msgSchedule (ws : Array Nat) : Array Nat :=
  (List.range 48).foldl (fun a j =>
    let t := j + 16
    a.push (w32 (a.getD (t - 16) 0 + ssig0 (a.getD (t - 15) 0) +
      a.getD (t - 7) 0 + ssig1 (a.getD (t - 2) 0)))) ws

/-- The eight 32-bit working variables / hash words of SHA-256. -/
structure Hash8 where
  a : Nat
  b : Nat
  c : Nat
  d : Nat
  e : Nat
  f : Nat
  g : Nat
  h : Nat
  deriving DecidableEq, Repr

/-- The SHA-256 round constants (decimal). -/
def sha256K : List Nat :=
  [1116352408, 1899447441, 3049323471, 3921009573,
   961987163, 1508970993, 2453635748, 2870763221,
   3624381080, 310598401, 607225278, 1426881987,
   1925078388, 2162078206, 2614888103, 3248222580,
   3835390401, 4022224774, 264347078, 604807628,
   770255983, 1249150122, 1555081692, 1996064986,
   2554220882, 2821834349, 2952996808, 3210313671,
   3336571891, 3584528711, 113926993, 338241895,
   666307205, 773529912, 1294757372, 1396182291,
   1695183700, 1986661051, 2177026350, 2456956037,
   2730485921, 2820302411, 3259730800, 3345764771,
   3516065817, 3600352804, 4094571909, 275423344,
   430227734, 506948616, 659060556, 883997877,
   958139571, 1322822218, 1537002063, 1747873779,
   1955562222, 2024104815, 2227730452, 2361852424,
   2428436474, 2756734187, 3204031479, 3329325298]

/-- The SHA-256 initial hash value (decimal). -/
def sha256H0 : Hash8 :=
  ⟨1779033703, 3144134277, 1013904242, 2773480762,
   1359893119, 2600822924, 528734635, 1541459225⟩

/-- The SHA-256 compression function over one scheduled chunk. -/
def compressChunk (st : Hash8) (w : Array Nat) : Hash8 :=
  let r := (List.range 64).foldl (fun (t : Hash8) i =>
    let ch := (t.e &&& t.f) ^^^ ((4294967295 ^^^ t.e) &&& t.g)
    let temp1 := w32 (t.h + bsig1 t.e + ch + sha256K.getD i 0 + w.getD i 0)
    let maj := (t.a &&& t.b) ^^^ (t.a &&& t.c) ^^^ (t.b &&& t.c)
    let temp2 := w32 (bsig0 t.a + maj)
    ⟨w32 (temp1 + temp2), t.a, t.b, t.c, w32 (t.d + temp1), t.e, t.f, t.g⟩) st
  ⟨w32 (st.a + r.a), w32 (st.b + r.b), w32 (st.c + r.c), w32 (st.d + r.d),
   w32 (st.e + r.e), w32 (st.f + r.f), w32 (st.g + r.g), w32 (st.h + r.h)⟩

/-- SHA-256 of a byte list, as eight 32-bit hash words. -/
def sha256Words (msg : List Nat) : Hash8 :=
  let padded := sha256Pad msg
  (List.range (padded.length / 64)).foldl
    (fun st i => compressChunk st (msgSchedule (chunkWords ((padded.drop (64 * i)).take 64))))
    sha256H0

/-- Lowercase hexadecimal digit. -/
def hexDigit (n : Nat) : Char :=
  if n < 10 then Char.ofNat (48 + n) else Char.ofNat (87 + n)

/-- The eight lowercase-hex characters of a 32-bit word. -/
def hexWordChars (n : Nat) : List Char :=
  (List.range 8).map (fun i => hexDigit ((n >>> ((7 - i) * 4)) &&& 15))

/-- The 64 lowercase-hex characters of a SHA-256 digest, mirroring the
`format!` with a lower-hex formatter in `compute_url_hash`. -/
def sha256HexChars (msg : List Nat) : List Char :=
  let d := sha256Words msg
  hexWordChars d.a ++ hexWordChars d.b ++ hexWordChars d.c ++ hexWordChars d.d ++
  hexWordChars d.e ++ hexWordChars d.f ++ hexWordChars d.g ++ hexWordChars d.h

/-- The UTF-8 bytes of a string (`url.as_bytes()` in Rust). -/
def strBytes (s : String) : List Nat :=
  (s.data.flatMap String.utf8EncodeChar).map (fun b => b.toNat)

/- ---------------------------------------------------------------------
   Thumbnail cache store (thumbnail.rs)
--------------------------------------------------------------------- -/

/-- `compute_url_hash` from thumbnail.rs: the first 16 hex characters of
the SHA-256 of the URL string. -/
def compute_url_hash (url : String) : String :=
  String.mk ((sha256HexChars (strBytes url)).take 16)

/-- `generate_cache_path` from thumbnail.rs: `cache_dir/<hash>.webp`
(path join modelled as slash concatenation). -/
def generate_cache_path (cache_dir : String) (url : String) : String :=
  cache_dir ++ "/" ++ compute_url_hash url ++ ".webp"

set_option maxRecDepth 10000 in
/-- SHA-256 test vector: the cache key of the string "abc" is the first
16 hex characters of its well-known digest. -/
theorem compute_url_hash_abc : compute_url_hash "abc" = "ba7816bf8f01cfea" := by decide

theorem hexWordChars_length (n : Nat) : (hexWordChars n).length = 8 := by
  simp [hexWordChars]

theorem sha256HexChars_length (msg : List Nat) : (sha256HexChars msg).length = 64 := by
  simp [sha256HexChars, hexWordChars_length]

theorem compute_url_hash_length (url : String) : (compute_url_hash url).length = 16 := by
  simp [compute_url_hash, String.length, sha256HexChars_length]

/-- `process_single_thumbnail` from thumbnail.rs, with the filesystem
existence check, the downloader, and the resize-encode step abstracted
as oracles. The second component counts how many times the network
downloader was invoked. -/
def process_single_thumbnail (fsExists : String → Bool)
    (dl : Except String Nat) (compressRes : Except String Nat)
    (cache_dir url : String) : Except String String × Nat :=
  let cache_path := generate_cache_path cache_dir url
  if fsExists cache_path then (.ok cache_path, 0)
  else
    match dl with
    | .error e => (.error e, 1)
    | .ok _ =>
        match compressRes with
        | .error e => (.error e, 1)
        | .ok _ => (.ok cache_path, 1)

/-- C3: the cache path is a pure fixed-width function of the URL (the
16-character SHA-256 prefix joined to the cache dir with extension
.webp); every successful call returns exactly that path, so two calls
with the same URL agree; and when the cache file already exists the
call returns it immediately with zero downloader invocations. -/
theorem thumbnail_cache_idempotent (fsExists : String → Bool)
    (dl compressRes : Except String Nat) (cache_dir url : String) :
    (compute_url_hash url).length = 16 ∧
    (fsExists (generate_cache_path cache_dir url) = true →
      process_single_thumbnail fsExists dl compressRes cache_dir url =
        (.ok (generate_cache_path cache_dir url), 0)) ∧
    (∀ p n, process_single_thumbnail fsExists dl compressRes cache_dir url = (.ok p, n) →
      p = generate_cache_path cache_dir url) := by
  refine ⟨compute_url_hash_length url, ?_, ?_⟩
  · intro h
    simp only [process_single_thumbnail, h, if_true]
  · intro p n h
    simp only [process_single_thumbnail] at h
    by_cases hfs : fsExists (generate_cache_path cache_dir url) = true
    · rw [if_pos hfs] at h
      exact (Except.ok.inj (congrArg Prod.fst h)).symm
    · rw [if_neg hfs] at h
      rcases dl with e | s
      · simp at h
      · rcases compressRes with e | s2
        · simp at h
        · exact (Except.ok.inj (congrArg Prod.fst h)).symm

/-- Closed instance of `thumbnail_cache_idempotent`: with the cache file
present, the call returns the cache path and performs no download. -/
theorem thumbnail_cache_idempotent_witness :
    process_single_thumbnail (fun _ => true) (.ok 1) (.ok 1) "cachedir" "u" =
      (.ok (generate_cache_path "cachedir" "u"), 0) :=
  (thumbnail_cache_idempotent (fun _ => true) (.ok 1) (.ok 1) "cachedir" "u").2.1 rfl

/- ---------------------------------------------------------------------
   Resilient downloader: download_image / should_retry (thumbnail.rs)
--------------------------------------------------------------------- -/

/-- Does `hay` start with `pat`? -/
def listStartsWith : List Char → List Char → Bool
  | _, [] => true
  | [], _ :: _ => false
  | a :: hay, b :: pat => a == b && listStartsWith hay pat

/-- Substring containment (Rust `str::contains` with a literal pattern). -/
def containsSub (hay pat : List Char) : Bool :=
  match hay with
  | [] => pat.isEmpty
  | _ :: rest => listStartsWith hay pat || containsSub rest pat

/-- `error.contains(pat)` for strings. -/
def strContains (hay pat : String) : Bool := containsSub hay.data pat.data

/-- `error.to_lowercase()` (ASCII suffices for the error taxonomy). -/
def toLowerStr (s : String) : String := String.mk (s.data.map Char.toLower)

/-- The never-retried error substrings from `should_retry`. -/
def permanent_errors : List String :=
  ["HTTP error 404", "HTTP error 403", "HTTP error 401",
   "Downloaded image is empty", "Image too large",
   "Failed to open image", "Failed to save thumbnail"]

/-- The retriable error substrings from `should_retry` (matched against
the lowercased error, exactly as the source does). -/
def retriable_errors : List String :=
  ["Failed to read response", "Failed to download", "timed out", "connection",
   "Failed to write to file", "error decoding", "interrupted"]

/-- Does the error match the permanent (never-retry) taxonomy? -/
def isPermanentError (error : String) : Bool :=
  permanent_errors.any (fun p => strContains error p)

/-- Does the lowercased error match the retriable taxonomy? -/
def matchesRetriable (error : String) : Bool :=
  retriable_errors.any (fun p => strContains (toLowerStr error) p)

/-- `should_retry` from thumbnail.rs: never beyond the attempt budget,
never on a permanent-class error, and by default (recognised-retriable
or unrecognised alike) retry. -/
def should_retry (error : String) (attempt maxRetries : Nat) : Bool :=
  if attempt ≥ maxRetries then false
  else if isPermanentError error then false
  else if matchesRetriable error then true
  else true

/-- Observable behavior of one `download_image` call: its result, the
per-attempt timeouts (seconds) actually used, and the backoff sleeps
(milliseconds) actually performed. -/
structure DownloadTrace where
  result : Except String Nat
  timeouts : List Nat
  sleeps : List Nat
  deriving DecidableEq, Repr

/-- The `for attempt in 1..=MAX_RETRIES` loop of `download_image`,
with `download_image_attempt` abstracted as the oracle `attemptF`
(indexed by attempt number) and the remaining iteration count as fuel.
Timeout per attempt is `INITIAL_TIMEOUT_SECS + (attempt-1)*10` and the
backoff sleep is `1000 * 2^(attempt-1)` ms. The fuel-exhausted message
abbreviates the source's interpolated final error. -/
def download_image_go (attemptF : Nat → Except String Nat) :
    Nat → Nat → String → DownloadTrace
  | 0, _, lastError =>
      ⟨.error ("Failed to download after 3 attempts: " ++ lastError), [], []⟩
  | remaining + 1, attempt, _ =>
      let timeout := 30 + (attempt - 1) * 10
      match attemptF attempt with
      | .ok size => ⟨.ok size, [timeout], []⟩
      | .error e =>
          if should_retry e attempt 3 then
            let rest := download_image_go attemptF remaining (attempt + 1) e
            ⟨rest.result, timeout :: rest.timeouts, 1000 * 2 ^ (attempt - 1) :: rest.sleeps⟩
          else ⟨.error e, [timeout], []⟩

/-- `download_image` from thumbnail.rs: MAX_RETRIES = 3, starting at
attempt 1. -/
def download_image (attemptF : Nat → Except String Nat) : DownloadTrace :=
  download_image_go attemptF 3 1 ""

theorem should_retry_of_permanent (e : String) (h : isPermanentError e = true)
    (attempt maxRetries : Nat) : should_retry e attempt maxRetries = false := by
  rw [should_retry]
  by_cases hle : attempt ≥ maxRetries
  · rw [if_pos hle]
  · rw [if_neg hle, h, if_pos rfl]

theorem should_retry_of_not_permanent (e : String) (h : isPermanentError e = false)
    (attempt maxRetries : Nat) (hlt : attempt < maxRetries) :
    should_retry e attempt maxRetries = true := by
  rw [should_retry, if_neg (Nat.not_le.mpr hlt), h]
  by_cases hm : matchesRetriable e = true
  · rw [hm]
    rfl
  · rw [Bool.of_not_eq_true hm]
    rfl

theorem should_retry_at_budget (e : String) : should_retry e 3 3 = false := by
  rw [should_retry, if_pos (Nat.le_refl 3)]

/-- C4 fails as stated: the post-download size re-check error
("Downloaded data exceeds maximum size ...") is an oversize-body
failure, yet it matches no permanent substring, so the downloader
classifies it transient and performs all 3 attempts (with backoff)
instead of exactly one. -/
theorem oversize_recheck_retried_counterexample :
    isPermanentError "Downloaded data exceeds maximum size (52428800 bytes) from u" = false ∧
    should_retry "Downloaded data exceeds maximum size (52428800 bytes) from u" 1 3 = true ∧
    download_image
        (fun _ => .error "Downloaded data exceeds maximum size (52428800 bytes) from u") =
      ⟨.error "Downloaded data exceeds maximum size (52428800 bytes) from u",
        [30, 40, 50], [1000, 2000]⟩ ∧
    ([30, 40, 50] : List Nat).length ≠ 1 := by
  refine ⟨by decide, by decide, by decide, by decide⟩

/-- C4 amended: a failure matching the permanent substrings (HTTP
401/403/404, empty body, Content-Length oversize "Image too large",
image-open failure, thumbnail-save failure) is attempted exactly once
with timeout 30s and no backoff; transient failures (including any
unrecognised error, and in particular the post-download oversize
re-check) are retried up to 3 total attempts with timeouts 30s, 40s,
50s (+10s per attempt) and strictly increasing backoff sleeps of
1000 ms then 2000 ms. -/
theorem download_retry_policy_amended (attemptF : Nat → Except String Nat)
    (e1 e2 e3 : String) (size : Nat) :
    (attemptF 1 = .error e1 → isPermanentError e1 = true →
      download_image attemptF = ⟨.error e1, [30], []⟩) ∧
    (attemptF 1 = .error e1 → isPermanentError e1 = false → attemptF 2 = .ok size →
      download_image attemptF = ⟨.ok size, [30, 40], [1000]⟩) ∧
    (attemptF 1 = .error e1 → isPermanentError e1 = false →
      attemptF 2 = .error e2 → isPermanentError e2 = false → attemptF 3 = .error e3 →
      download_image attemptF = ⟨.error e3, [30, 40, 50], [1000, 2000]⟩) := by
  refine ⟨?_, ?_, ?_⟩
  · intro h1 hp
    show download_image_go attemptF (2 + 1) 1 "" = _
    rw [download_image_go, h1]
    simp [should_retry_of_permanent e1 hp]
  · intro h1 hp h2
    have g2 : download_image_go attemptF 2 2 e1 = ⟨.ok size, [40], []⟩ := by
      show download_image_go attemptF (1 + 1) 2 e1 = _
      rw [download_image_go, h2]
    show download_image_go attemptF (2 + 1) 1 "" = _
    rw [download_image_go, h1]
    simp [should_retry_of_not_permanent e1 hp 1 3 (by decide), g2]
  · intro h1 hp1 h2 hp2 h3
    have g3 : download_image_go attemptF 1 3 e2 = ⟨.error e3, [50], []⟩ := by
      show download_image_go attemptF (0 + 1) 3 e2 = _
      rw [download_image_go, h3]
      simp [should_retry_at_budget]
    have g2 : download_image_go attemptF 2 2 e1 = ⟨.error e3, [40, 50], [2000]⟩ := by
      show download_image_go attemptF (1 + 1) 2 e1 = _
      rw [download_image_go, h2]
      simp [should_retry_of_not_permanent e2 hp2 2 3 (by decide), g3]
    show download_image_go attemptF (2 + 1) 1 "" = _
    rw [download_image_go, h1]
    simp [should_retry_of_not_permanent e1 hp1 1 3 (by decide), g2]

/-- Closed instance of `download_retry_policy_amended`: an HTTP 404 is
attempted exactly once, with a 30-second timeout and no backoff. -/
theorem download_retry_policy_amended_witness :
    download_image (fun _ => .error "HTTP error 404 when downloading from u") =
      ⟨.error "HTTP error 404 when downloading from u", [30], []⟩ :=
  (download_retry_policy_amended (fun _ => .error "HTTP error 404 when downloading from u")
    "HTTP error 404 when downloading from u" "" "" 0).1 rfl (by decide)

/- ---------------------------------------------------------------------
   Thumbnail batch result collection: generate_thumbnails_impl
   (thumbnail.rs lines 504-539)

   The per-URL futures are abstracted as their results (join_all of the
   futures collected in input order returns results in that same input
   order); the collection loop and the all-failed check are concrete.
--------------------------------------------------------------------- -/

/-- The payload of a successful per-URL result. -/
def exOk (r : Except String String) : Option String :=
  match r with
  | .ok p => some p
  | .error _ => none

/-- Is the per-URL result a failure? -/
def exIsErr (r : Except String String) : Bool :=
  match r with
  | .ok _ => false
  | .error _ => true

/-- The `for (idx, result) in results` loop of `generate_thumbnails_impl`:
push successful paths in order, count failures. -/
def collect_results (results : List (Except String String)) : List String × Nat :=
  results.foldl (fun acc r =>
    match r with
    | .ok p => (acc.1 ++ [p], acc.2)
    | .error _ => (acc.1, acc.2 + 1)) ([], 0)

/-- `generate_thumbnails_impl` from thumbnail.rs, applied to the joined
per-URL results: fail outright only when there was at least one failure
and no success, otherwise return the successful paths. -/
def generate_thumbnails_impl (results : List (Except String String)) :
    Except String (List String) :=
  let out := collect_results results
  if out.2 > 0 && out.1.isEmpty then
    .error ("Failed to generate all " ++ toString out.2 ++ " thumbnails")
  else .ok out.1

theorem collect_results_go (results : List (Except String String))
    (acc : List String × Nat) :
    results.foldl (fun acc r =>
      match r with
      | .ok p => (acc.1 ++ [p], acc.2)
      | .error _ => (acc.1, acc.2 + 1)) acc =
    (acc.1 ++ results.filterMap exOk, acc.2 + results.countP exIsErr) := by
  induction results generalizing acc with
  | nil => simp
  | cons r rest ih =>
      rcases r with e | p <;>
        simp [ih, List.filterMap_cons, exOk, exIsErr, List.countP_cons] <;> omega

theorem collect_results_eq (results : List (Except String String)) :
    collect_results results = (results.filterMap exOk, results.countP exIsErr) := by
  rw [collect_results, collect_results_go]
  simp

theorem exOk_none_iff (r : Except String String) : exOk r = none ↔ exIsErr r = true := by
  cases r <;> simp [exOk, exIsErr]

/-- C9: the batch returns an error exactly when at least one item was
submitted and every item failed; whenever some item succeeded (or the
batch was empty) it returns the successful paths with the failures
omitted, and the failure count it reports is the number of failed
items. -/
theorem thumbnail_batch_error_policy (results : List (Except String String)) :
    ((∃ e, generate_thumbnails_impl results = .error e) ↔
      results ≠ [] ∧ ∀ r ∈ results, exIsErr r = true) ∧
    ((∃ r ∈ results, exIsErr r = false) →
      generate_thumbnails_impl results = .ok (results.filterMap exOk)) ∧
    (collect_results results).2 = results.countP exIsErr := by
  have hc := collect_results_eq results
  have hkey : ((results.countP exIsErr > 0 && (results.filterMap exOk).isEmpty) = true) ↔
      (results ≠ [] ∧ ∀ r ∈ results, exIsErr r = true) := by
    rw [Bool.and_eq_true]
    constructor
    · rintro ⟨h1, h2⟩
      rw [List.isEmpty_iff, List.filterMap_eq_nil] at h2
      have hall : ∀ r ∈ results, exIsErr r = true :=
        fun r hr => (exOk_none_iff r).mp (h2 r hr)
      refine ⟨?_, hall⟩
      rintro rfl
      simp at h1
    · rintro ⟨h1, h2⟩
      constructor
      · rcases results with _ | ⟨r, rest⟩
        · exact absurd rfl h1
        · have : 0 < (r :: rest).countP exIsErr :=
            List.countP_pos.mpr ⟨r, List.mem_cons_self r rest, h2 r (List.mem_cons_self r rest)⟩
          simpa using this
      · rw [List.isEmpty_iff, List.filterMap_eq_nil]
        exact fun r hr => (exOk_none_iff r).mpr (h2 r hr)
  refine ⟨?_, ?_, by rw [hc]⟩
  · rw [generate_thumbnails_impl, hc]
    constructor
    · intro hex
      rcases hex with ⟨e, he⟩
      by_cases hcond : (results.countP exIsErr > 0 && (results.filterMap exOk).isEmpty) = true
      · exact hkey.mp hcond
      · rw [if_neg (by simpa using hcond)] at he
        exact absurd he (by simp)
    · intro hall
      rw [if_pos (by simpa using hkey.mpr hall)]
      exact ⟨_, rfl⟩
  · intro hsucc
    rw [generate_thumbnails_impl, hc]
    rw [if_neg]
    intro hcond
    rcases hsucc with ⟨r, hr, hok⟩
    exact absurd ((hkey.mp (by simpa using hcond)).2 r hr) (by simp [hok])

/-- Closed instance of `thumbnail_batch_error_policy`: one failure among
two submissions still yields the successful path list. -/
theorem thumbnail_batch_error_policy_witness :
    generate_thumbnails_impl [.error "x", .ok "p"] =
      .ok ([.error "x", .ok "p"].filterMap exOk) :=
  (thumbnail_batch_error_policy [.error "x", .ok "p"]).2.1 ⟨.ok "p", by decide, by decide⟩

theorem filterMap_exOk_length (results : List (Except String String)) :
    (results.filterMap exOk).length + results.countP exIsErr = results.length := by
  induction results with
  | nil => rfl
  | cons r rest ih =>
      rcases r with e | p <;>
        simp [List.filterMap_cons, exOk, exIsErr, List.countP_cons, ← ih] <;> omega

/-- C10: a successful batch returns exactly the subsequence of per-URL
results that succeeded, in submission order (the loop drops failures in
place), and the dropped entries are exactly the failure count. -/
theorem thumbnail_output_order (results : List (Except String String))
    (out : List String) (h : generate_thumbnails_impl results = .ok out) :
    out = results.filterMap exOk ∧
    out.length + results.countP exIsErr = results.length := by
  have hc := collect_results_eq results
  rw [generate_thumbnails_impl, hc] at h
  by_cases hcond : (results.countP exIsErr > 0 && (results.filterMap exOk).isEmpty) = true
  · rw [if_pos (by simpa using hcond)] at h
    exact absurd h (by simp)
  · rw [if_neg (by simpa using hcond)] at h
    have hout : out = results.filterMap exOk := (Except.ok.inj h).symm
    refine ⟨hout, ?_⟩
    rw [hout]
    exact filterMap_exOk_length results

/-- Closed instance of `thumbnail_output_order`: successes come back in
submission order with the failure dropped in place. -/
theorem thumbnail_output_order_witness :
    (["a", "b"] : List String) = [.ok "a", .error "x", .ok "b"].filterMap exOk :=
  (thumbnail_output_order [.ok "a", .error "x", .ok "b"] ["a", "b"] (by decide)).1

/- ---------------------------------------------------------------------
   Single-flight guard: GENERATING_THUMBNAILS (thumbnail.rs)

   Both generate_thumbnails and generate_thumbnails_from_local wrap
   their impl in the same protocol on the process-wide AtomicBool:
     compare_exchange(false, true): on failure return the busy error
     immediately; on success run the impl and then store(false)
     unconditionally (the impl's own success or failure does not affect
     the release).
   Each invocation therefore touches the gate in at most two atomic
   steps: the compare_exchange and the store. Two concurrent
   invocations are modelled as two three-state task machines
   interleaved by an arbitrary schedule; `doneBusy` is the immediate
   busy-error return, `critical` is the in-flight impl, and the
   `critical → doneOk` step is the unconditional store(false).
--------------------------------------------------------------------- -/

/-- Program counter of one invocation of the guarded command. -/
inductive TaskPc where
  | start
  | critical
  | doneOk
  | doneBusy
  deriving DecidableEq, Repr, Fintype

/-- Gate events: a successful compare_exchange, the store(false)
release, and the immediate busy rejection. -/
inductive GateEv where
  | acq
  | rel
  | busy
  deriving DecidableEq, Repr, Fintype

/-- Shared gate plus the two tasks' program counters. -/
structure GateState where
  gate : Bool
  taskA : TaskPc
  taskB : TaskPc
  deriving DecidableEq, Repr

instance : Fintype GateState :=
  Fintype.ofEquiv (Bool × TaskPc × TaskPc)
    { toFun := fun x => ⟨x.1, x.2.1, x.2.2⟩
      invFun := fun s => (s.gate, s.taskA, s.taskB)
      left_inv := fun _ => rfl
      right_inv := fun _ => rfl }

/-- One atomic step of a single task against the gate. -/
def stepTask (gate : Bool) (pc : TaskPc) : Bool × TaskPc × Option GateEv :=
  match pc with
  | .start => if gate then (gate, .doneBusy, some .busy) else (true, .critical, some .acq)
  | .critical => (false, .doneOk, some .rel)
  | .doneOk => (gate, .doneOk, none)
  | .doneBusy => (gate, .doneBusy, none)

/-- One system step: the scheduled task (true = A, false = B) takes its
next atomic step; finished tasks stutter. -/
def step (s : GateState) (who : Bool) : GateState × Option (Bool × GateEv) :=
  if who then
    let r := stepTask s.gate s.taskA
    (⟨r.1, r.2.1, s.taskB⟩, r.2.2.map (fun e => (true, e)))
  else
    let r := stepTask s.gate s.taskB
    (⟨r.1, s.taskA, r.2.1⟩, r.2.2.map (fun e => (false, e)))

/-- Run a schedule, collecting the event trace. -/
def exec (s : GateState) : List Bool → GateState × List (Bool × GateEv)
  | [] => (s, [])
  | w :: ws =>
      let r := step s w
      let rest := exec r.1 ws
      (rest.1, r.2.toList ++ rest.2)

/-- Both tasks start at `start` with the gate free. -/
def initGate : GateState := ⟨false, .start, .start⟩

/-- Run a schedule from the initial state. -/
def runGate (sched : List Bool) : GateState × List (Bool × GateEv) :=
  exec initGate sched

/-- The program counter of the selected task. -/
def sel (who : Bool) (s : GateState) : TaskPc :=
  if who then s.taskA else s.taskB

/-- How many events of task `who` of kind `e` the trace holds. -/
def countT (tr : List (Bool × GateEv)) (who : Bool) (e : GateEv) : Nat :=
  tr.countP (fun x => x.1 == who && x.2 == e)

/-- The event history a task must have produced to be at a given pc. -/
def pcCountsE (pc : TaskPc) (e : GateEv) : Nat :=
  match pc, e with
  | .critical, .acq => 1
  | .doneOk, .acq => 1
  | .doneOk, .rel => 1
  | .doneBusy, .busy => 1
  | _, _ => 0

/-- Gate invariant: the gate is held exactly when some task is in its
critical section, and never by both tasks at once. -/
def Inv (s : GateState) : Prop :=
  s.gate = (s.taskA == .critical || s.taskB == .critical) ∧
  ¬(s.taskA = .critical ∧ s.taskB = .critical)

instance (s : GateState) : Decidable (Inv s) := by
  rw [Inv]
  infer_instance

theorem step_inv : ∀ (s : GateState) (w : Bool), Inv s → Inv (step s w).1 := by decide

theorem step_counts : ∀ (s : GateState) (w who : Bool) (e : GateEv),
    countT (step s w).2.toList who e + pcCountsE (sel who s) e =
      pcCountsE (sel who (step s w).1) e := by
  decide

theorem countT_append (t1 t2 : List (Bool × GateEv)) (who : Bool) (e : GateEv) :
    countT (t1 ++ t2) who e = countT t1 who e + countT t2 who e := by
  simp [countT, List.countP_append]

theorem exec_inv (sched : List Bool) (s : GateState) (h : Inv s) :
    Inv (exec s sched).1 := by
  induction sched generalizing s with
  | nil => exact h
  | cons w ws ih => exact ih _ (step_inv s w h)

theorem exec_counts (sched : List Bool) (s : GateState) (who : Bool) (e : GateEv) :
    countT (exec s sched).2 who e + pcCountsE (sel who s) e =
      pcCountsE (sel who (exec s sched).1) e := by
  induction sched generalizing s with
  | nil => simp [exec, countT]
  | cons w ws ih =>
      rw [show exec s (w :: ws) =
        ((exec (step s w).1 ws).1, (step s w).2.toList ++ (exec (step s w).1 ws).2) from rfl]
      rw [countT_append]
      dsimp only
      have h1 := step_counts s w who e
      have h2 := ih (step s w).1
      omega

theorem runGate_counts (sched : List Bool) (who : Bool) (e : GateEv) :
    countT (runGate sched).2 who e = pcCountsE (sel who (runGate sched).1) e := by
  have := exec_counts sched initGate who e
  have hz : pcCountsE (sel who initGate) e = 0 := by
    cases who <;> cases e <;> rfl
  rw [runGate]
  omega

/-- C5: the single-flight gate admits one batch at a time. In every
interleaving of two invocations: (i) both tasks are never in flight
together; (ii) while one task is in flight, the other's
compare_exchange step immediately ends it busy without touching the
gate (no queuing or blocking); (iii) a task that finished its batch
acquired and released exactly once — the release being the
unconditional store on both the success and the failure path of the
impl — while a busy-rejected task acquired and released zero times;
(iv) once the holder has returned, a fresh invocation's
compare_exchange succeeds again. -/
theorem single_flight_gate (sched : List Bool) :
    (¬((runGate sched).1.taskA = .critical ∧ (runGate sched).1.taskB = .critical)) ∧
    ((runGate sched).1.taskA = .critical → (runGate sched).1.taskB = .start →
      (step (runGate sched).1 false).1.taskB = .doneBusy ∧
      (step (runGate sched).1 false).1.gate = (runGate sched).1.gate) ∧
    (∀ who : Bool,
      (sel who (runGate sched).1 = .doneOk →
        countT (runGate sched).2 who .acq = 1 ∧ countT (runGate sched).2 who .rel = 1) ∧
      (sel who (runGate sched).1 = .doneBusy →
        countT (runGate sched).2 who .acq = 0 ∧ countT (runGate sched).2 who .rel = 0)) ∧
    ((runGate sched).1.taskA = .doneOk → (runGate sched).1.taskB = .start →
      (step (runGate sched).1 false).1.taskB = .critical) := by
  have hinv : Inv (runGate sched).1 := exec_inv sched initGate (by decide)
  refine ⟨hinv.2, ?_, ?_, ?_⟩
  · intro hA hB
    have hg : (runGate sched).1.gate = true := by
      rw [hinv.1, hA, hB]
      rfl
    constructor
    · simp [step, stepTask, hg, hB]
    · simp [step, stepTask, hg, hB]
  · intro who
    constructor
    · intro hdone
      rw [runGate_counts, runGate_counts, hdone]
      exact ⟨rfl, rfl⟩
    · intro hbusy
      rw [runGate_counts, runGate_counts, hbusy]
      exact ⟨rfl, rfl⟩
  · intro hA hB
    have hg : (runGate sched).1.gate = false := by
      rw [hinv.1, hA, hB]
      rfl
    simp [step, stepTask, hg, hB]

/-- Closed instance of `single_flight_gate`: schedule A-acquire,
B-attempt (rejected busy), A-release; the finished task shows exactly
one acquire and one release. -/
theorem single_flight_gate_witness :
    countT (runGate [true, false, true]).2 true .acq = 1 ∧
    countT (runGate [true, false, true]).2 true .rel = 1 :=
  ((single_flight_gate [true, false, true]).2.2.1 true).1 (by decide)

/- ---------------------------------------------------------------------
   Cache write discipline: compress_to_thumbnail (thumbnail.rs 340-376)

   The source opens the image, resizes it, and calls
   save_with_format(output_path, WebP) with output_path being the FINAL
   cache path: the save creates (truncates) the file at that path and
   streams the encoded bytes into it, with no temp-file + rename and no
   cleanup on failure. This is modelled by tracking the content at the
   cache path: `none` = absent, `some bs` = a file holding bytes `bs`.
   `openImg` is the `image::open` oracle; `encode` is the encode-write
   oracle, whose error payload is the byte prefix already written when
   the failure occurred. `states` lists the successive contents of the
   cache path observable during the call (initial, just-created empty
   file, final).
--------------------------------------------------------------------- -/

/-- Observable effect of one `compress_to_thumbnail` call on the cache
path. -/
structure CacheWriteRun where
  final : Option (List Nat)
  states : List (Option (List Nat))
  result : Except String Nat
  deriving DecidableEq, Repr

/-- `compress_to_thumbnail` from thumbnail.rs over the cache-path
content: an image-open failure happens before the output file is
created; otherwise the file is created at the final cache path and the
encode either completes or strands the prefix written so far. -/
def compress_to_thumbnail (openImg : Except String Unit)
    (encode : Except (List Nat) (List Nat))
    (initial : Option (List Nat)) : CacheWriteRun :=
  match openImg with
  | .error e => ⟨initial, [initial], .error ("Failed to open image: " ++ e)⟩
  | .ok _ =>
      match encode with
      | .ok full => ⟨some full, [initial, some [], some full], .ok full.length⟩
      | .error written =>
          ⟨some written, [initial, some [], some written], .error "Failed to save thumbnail"⟩

/-- C6 fails as stated: when the encode step fails after the output file
has been created at the cache path, a truncated file remains there (the
cache is not unchanged on error), and the freshly-created empty file
was observable mid-call. -/
theorem cache_write_not_atomic_counterexample :
    (compress_to_thumbnail (.ok ()) (.error [7]) none).final = some [7] ∧
    (compress_to_thumbnail (.ok ()) (.error [7]) none).final ≠ none ∧
    (∃ e, (compress_to_thumbnail (.ok ()) (.error [7]) none).result = .error e) ∧
    some ([] : List Nat) ∈ (compress_to_thumbnail (.ok ()) (.error [7]) none).states := by
  refine ⟨rfl, by simp [compress_to_thumbnail], ⟨"Failed to save thumbnail", rfl⟩, by decide⟩

/-- C6 amended: the encode writes directly to the final cache path with
no rename or cleanup discipline. When opening the source image fails
(before the output file is created), the cache path is untouched; when
the encode succeeds, the full thumbnail ends up at the cache path; but
when the encode fails after file creation, the partially written bytes
remain at the cache path, and in both write cases the intermediate
just-created empty file is observable to readers. -/
theorem cache_write_amended (openImg : Except String Unit)
    (encode : Except (List Nat) (List Nat)) (initial : Option (List Nat)) :
    (∀ e, openImg = .error e →
      (compress_to_thumbnail openImg encode initial).final = initial ∧
      (compress_to_thumbnail openImg encode initial).states = [initial]) ∧
    (∀ full, openImg = .ok () → encode = .ok full →
      (compress_to_thumbnail openImg encode initial).final = some full ∧
      (compress_to_thumbnail openImg encode initial).result = .ok full.length ∧
      some [] ∈ (compress_to_thumbnail openImg encode initial).states) ∧
    (∀ written, openImg = .ok () → encode = .error written →
      (compress_to_thumbnail openImg encode initial).final = some written ∧
      (compress_to_thumbnail openImg encode initial).result = .error "Failed to save thumbnail" ∧
      some [] ∈ (compress_to_thumbnail openImg encode initial).states) := by
  refine ⟨?_, ?_, ?_⟩
  · intro e he
    rw [he]
    exact ⟨rfl, rfl⟩
  · intro full ho he
    rw [ho, he]
    exact ⟨rfl, rfl, by simp [compress_to_thumbnail]⟩
  · intro written ho he
    rw [ho, he]
    exact ⟨rfl, rfl, by simp [compress_to_thumbnail]⟩

/-- Closed instance of `cache_write_amended`: an image-open failure
leaves the cache path untouched. -/
theorem cache_write_amended_witness :
    (compress_to_thumbnail (.error "bad") (.ok [1]) none).final = none ∧
    (compress_to_thumbnail (.error "bad") (.ok [1]) none).states = [none] :=
  ((cache_write_amended (.error "bad") (.ok [1]) none).1 "bad" rfl)

end Yana
